import Mathlib

/-!
Verification of the `GoogleCloudStorageHook` client
(`airflow/contrib/hooks/gcs_hook.py`) against its natural-language
specification.

The hook is a thin, synchronous client over a remote object-storage API.
Each operation of the hook is embedded as a Lean function parameterised by
the outcome(s) of the remote calls it issues, so that every theorem
quantifies over all possible service behaviours.  HTTP failures carry a
string status, exactly as the Python code compares `ex.resp['status']`
against the string `'404'`.
-/

namespace GCSHook

/-- A remote-call failure carrying an HTTP-like status code.  The Python
code reads `ex.resp['status']`, a string, so the status is a `String`. -/
structure HttpError where
  status : String
deriving DecidableEq, Repr

/-- Payload of a media GET / file content.  The Python code distinguishes
`bytes` payloads from decoded-text payloads (`isinstance(..., bytes)`)
when choosing the file write mode. -/
inductive Content where
  | bytes (data : List Nat)
  | text (s : String)
deriving DecidableEq, Repr

/-- A Python `datetime`: a wall-clock value together with an optional
UTC-offset (`tzinfo`); `tzinfo = none` is a naive datetime.  Values are
integers (e.g. seconds since an epoch, offsets in seconds). -/
structure Datetime where
  wall : Int
  tzinfo : Option Int
deriving DecidableEq, Repr

/-- The absolute instant an (aware) datetime denotes: wall-clock value
minus the UTC offset.  Python compares aware datetimes by their UTC
instants; the hook only ever compares after making both sides aware. -/
def Datetime.toInstant (d : Datetime) : Int :=
  d.wall - d.tzinfo.getD 0

/-- The two lines `if not ts.tzinfo: ts = ts.replace(tzinfo=tzutc())` of
`is_updated_after`: a naive threshold is reinterpreted as UTC (offset 0);
an aware threshold is left unchanged. -/
def Datetime.replaceUtcIfNaive (d : Datetime) : Datetime :=
  if d.tzinfo.isNone then { d with tzinfo := some 0 } else d

/-- The subset of the object-metadata GET response that the hook consumes:
the optional `updated` field.  The field holds an ISO-8601 string with a
timezone; we model it as the timezone-aware datetime that string denotes
(the `dateutil.parser.parse` call is an external library and is modelled
as producing this value). -/
structure MetaResponse where
  updated : Option Datetime
deriving DecidableEq, Repr

/-- `GoogleCloudStorageHook.exists` (gcs_hook.py lines 94-114): issue the
metadata GET; return `True` on success; on an `HttpError` return `False`
when the status is `'404'` and re-raise otherwise.  The remote call is
injected as `getMetadata`. -/
def gcsExists (getMetadata : String → String → Except HttpError MetaResponse)
    (bucket object : String) : Except HttpError Bool :=
  match getMetadata bucket object with
  | .ok _ => .ok true
  | .error ex => if ex.status = "404" then .ok false else .error ex

/-- `GoogleCloudStorageHook.is_updated_after` (gcs_hook.py lines 117-154):
issue the metadata GET; if the response has an `updated` field, replace a
naive threshold's tzinfo by UTC, parse `updated`, and return `True` when
`updated > ts`; in every other non-raising case return `False`; an
`HttpError` with status other than `'404'` is re-raised. -/
def is_updated_after (getMetadata : String → String → Except HttpError MetaResponse)
    (bucket object : String) (ts : Datetime) : Except HttpError Bool :=
  match getMetadata bucket object with
  | .ok response =>
    match response.updated with
    | some updatedRaw =>
      let ts := ts.replaceUtcIfNaive
      let updated := updatedRaw
      if updated.toInstant > ts.toInstant then .ok true else .ok false
    | none => .ok false
  | .error ex => if ex.status ≠ "404" then .error ex else .ok false

/-- `GoogleCloudStorageHook.delete` (gcs_hook.py lines 156-179): issue the
delete call (optionally generation-scoped); return `True` on success; on
an `HttpError` return `False` when the status is `'404'` and re-raise
otherwise. -/
def gcsDelete (deleteObj : String → String → Option String → Except HttpError Unit)
    (bucket object : String) (generation : Option String) : Except HttpError Bool :=
  match deleteObj bucket object generation with
  | .ok _ => .ok true
  | .error ex => if ex.status = "404" then .ok false else .error ex

/-- The local filesystem, mapping paths to file contents. -/
abbrev FileSystem := List (String × Content)

/-- Read a local file (used by `upload` via `MediaFileUpload`). -/
def readFile (fs : FileSystem) (path : String) : Option Content :=
  List.lookup path fs

/-- Write a local file, shadowing any previous content at that path. -/
def writeFile (fs : FileSystem) (path : String) (c : Content) : FileSystem :=
  (path, c) :: fs

/-- Python truthiness of the `filename` argument of `download`: the
default is `False` (modelled as `none`), and an empty string is falsy. -/
def filenameTruthy : Option String → Bool
  | none => false
  | some s => s ≠ ""

/-- `GoogleCloudStorageHook.download` (gcs_hook.py lines 47-70): issue the
media GET with no exception handling (every failure propagates); then
`if filename:` write the content to that path; return the content either
way.  The resulting filesystem is returned alongside the content. -/
def download (getMedia : String → String → Except HttpError Content)
    (bucket object : String) (filename : Option String) (fs : FileSystem) :
    Except HttpError (Content × FileSystem) :=
  match getMedia bucket object with
  | .error ex => .error ex
  | .ok downloaded_file_bytes =>
    if filenameTruthy filename then
      match filename with
      | some f => .ok (downloaded_file_bytes, writeFile fs f downloaded_file_bytes)
      | none => .ok (downloaded_file_bytes, fs)
    else
      .ok (downloaded_file_bytes, fs)

/-- One entry of a list-page response's `items` array, as the loop body
`if item and 'name' in item` distinguishes them: a falsy entry, a truthy
entry without a `name` field, or an entry with a `name`. -/
inductive ListEntry where
  | falsy
  | noName
  | named (name : String)
deriving DecidableEq, Repr

/-- The `name` the loop body appends for an entry, if any. -/
def ListEntry.nameOf : ListEntry → Option String
  | .named n => some n
  | _ => none

/-- A list-page response: an optional `items` array and an optional
`nextPageToken` string. -/
structure ListResponse where
  items : Option (List ListEntry)
  nextPageToken : Option String
deriving DecidableEq, Repr

/-- The `while(True)` pagination loop of `GoogleCloudStorageHook.list`
(gcs_hook.py lines 196-223), made structurally recursive on a fuel bound.
`page` maps the `pageToken` of a request to the service's response.
Besides the accumulated `ids`, the result records the list of page
requests issued (each identified by the `pageToken` it carried) and a
flag that is `true` when the loop exited by one of its `break`s (rather
than by fuel exhaustion, which the Python loop does not have). -/
def listLoop (page : Option String → ListResponse) :
    Nat → Option String → List String → List (Option String) →
    List String × List (Option String) × Bool
  | 0, _, ids, reqs => (ids, reqs, false)
  | fuel + 1, pageToken, ids, reqs =>
    let response := page pageToken
    let reqs := reqs ++ [pageToken]
    match response.items with
    | none => (ids, reqs, true)
    | some items =>
      let ids := ids ++ items.filterMap ListEntry.nameOf
      match response.nextPageToken with
      | none => (ids, reqs, true)
      | some tok =>
        if tok = "" then (ids, reqs, true)
        else listLoop page fuel (some tok) ids reqs

/-- `GoogleCloudStorageHook.list` (gcs_hook.py lines 181-223): run the
pagination loop starting with `pageToken = None` and empty accumulators.
`listPage` is the injected service call, taking bucket, versions,
maxResults, pageToken and the name filter (a prefix string) in the order
the code passes them. -/
def gcsList
    (listPage : String → Option Bool → Option Int → Option String → Option String → ListResponse)
    (bucket : String) (versions : Option Bool) (maxResults : Option Int)
    (pfx : Option String) (fuel : Nat) :
    List String × List (Option String) × Bool :=
  listLoop (fun tok => listPage bucket versions maxResults tok pfx) fuel none [] []

/-- Modelled from the spec: the remote storage service's object store
(spec §6, "Remote storage API"), which is an external collaborator and
not part of this repository.  It maps (bucket, object) pairs to stored
contents; `insert` replaces any existing object of the same name and
`getMedia` returns the stored content or a 404 failure. -/
abbrev Store := List ((String × String) × Content)

/-- Modelled from the spec: `insert(...) -> ok` — store the payload under
(bucket, object), replacing any previous object of that name. -/
def storeInsert (store : Store) (bucket object : String) (c : Content) : Store :=
  ((bucket, object), c) :: store

/-- Modelled from the spec: `getMedia(...) -> bytes | error` — return the
stored content, or a 404 failure when no such object exists. -/
def storeGetMedia (store : Store) (bucket object : String) : Except HttpError Content :=
  match List.lookup (bucket, object) store with
  | some c => .ok c
  | none => .error { status := "404" }

/-- `GoogleCloudStorageHook.upload` (gcs_hook.py lines 73-91) wired to the
spec-modelled store: read the local source file fully (`MediaFileUpload`;
a missing file is a local I/O error, `none`), then issue one insert call
that replaces any existing object of the same name.  The mime type is
passed through to the service and does not affect the stored content. -/
def uploadToStore (store : Store) (fs : FileSystem)
    (bucket object filename mime_type : String) : Option Store :=
  match readFile fs filename with
  | none => none
  | some media =>
    let _ := mime_type
    some (storeInsert store bucket object media)

/-! Concrete service behaviours used to exercise the theorems. -/

/-- A metadata GET that always succeeds with no `updated` field. -/
def metaOk : String → String → Except HttpError MetaResponse :=
  fun _ _ => .ok { updated := none }

/-- A metadata GET that always succeeds with `updated` at instant 5 UTC. -/
def metaUpd5 : String → String → Except HttpError MetaResponse :=
  fun _ _ => .ok { updated := some { wall := 5, tzinfo := some 0 } }

/-- A metadata GET that always fails with status 404. -/
def meta404 : String → String → Except HttpError MetaResponse :=
  fun _ _ => .error { status := "404" }

/-- A metadata GET that always fails with status 500. -/
def meta500 : String → String → Except HttpError MetaResponse :=
  fun _ _ => .error { status := "500" }

/-- A delete call that always succeeds. -/
def deleteOk : String → String → Option String → Except HttpError Unit :=
  fun _ _ _ => .ok ()

/-- A delete call that always fails with status 404. -/
def delete404 : String → String → Option String → Except HttpError Unit :=
  fun _ _ _ => .error { status := "404" }

/-- A delete call that always fails with status 500. -/
def delete500 : String → String → Option String → Except HttpError Unit :=
  fun _ _ _ => .error { status := "500" }

/-- A media GET that always fails with status 404. -/
def media404 : String → String → Except HttpError Content :=
  fun _ _ => .error { status := "404" }

/-- A media GET that always succeeds with a one-byte payload. -/
def mediaByte : String → String → Except HttpError Content :=
  fun _ _ => .ok (.bytes [7])

/-- A three-page listing: pages 1 and 2 carry non-empty tokens, page 3
carries no token. -/
def pages3 : String → Option Bool → Option Int → Option String → Option String → ListResponse :=
  fun _ _ _ tok _ =>
    if tok = none then { items := some [.named "a1", .named "a2"], nextPageToken := some "T1" }
    else if tok = some "T1" then { items := some [.named "b1"], nextPageToken := some "T2" }
    else { items := some [.named "c1"], nextPageToken := none }

/-- A three-page listing whose third page carries an empty-string token. -/
def pages3empty : String → Option Bool → Option Int → Option String → Option String → ListResponse :=
  fun _ _ _ tok _ =>
    if tok = none then { items := some [.named "a1"], nextPageToken := some "T1" }
    else if tok = some "T1" then { items := some [.named "b1"], nextPageToken := some "T2" }
    else { items := some [.named "c1"], nextPageToken := some "" }

/-- A listing whose every response lacks the `items` field. -/
def pagesNoItems : String → Option Bool → Option Int → Option String → Option String → ListResponse :=
  fun _ _ _ _ _ => { items := none, nextPageToken := none }

/-!
Theorems, one per claim of the specification.
-/

/-- C1: for every (bucket, object), `exists` returns `true` when the
metadata GET succeeds, returns `false` when and only when the call fails
with status code 404, and re-raises the failure for every other failure
status, never converting a non-404 failure into a boolean. -/
theorem exists_404_disambiguation
    (getMetadata : String → String → Except HttpError MetaResponse)
    (bucket object : String) :
    (∀ r, getMetadata bucket object = .ok r →
      gcsExists getMetadata bucket object = .ok true) ∧
    (∀ ex, getMetadata bucket object = .error ex →
      (gcsExists getMetadata bucket object = .ok false ↔ ex.status = "404")) ∧
    (∀ ex, getMetadata bucket object = .error ex → ex.status ≠ "404" →
      gcsExists getMetadata bucket object = .error ex) := by
  refine ⟨fun r h => ?_, fun ex h => ?_, fun ex h hne => ?_⟩
  · simp [gcsExists, h]
  · constructor
    · intro hres
      by_contra hne
      simp [gcsExists, h, hne] at hres
    · intro h404
      simp [gcsExists, h, h404]
  · simp [gcsExists, h, hne]

/-- Witness for C1 at concrete service behaviours. -/
theorem exists_404_disambiguation_witness :
    gcsExists metaOk "b" "o" = .ok true ∧
    gcsExists meta404 "b" "o" = .ok false ∧
    gcsExists meta500 "b" "o" = .error { status := "500" } :=
  ⟨(exists_404_disambiguation metaOk "b" "o").1 _ rfl,
   ((exists_404_disambiguation meta404 "b" "o").2.1 _ rfl).mpr rfl,
   (exists_404_disambiguation meta500 "b" "o").2.2 _ rfl (by decide)⟩

/-- C2 counterexample: when the delete call fails with status 404,
`delete` returns `false`, not `true` as the claim states. -/
theorem delete_missing_true_cex :
    gcsDelete delete404 "b" "o" none = .ok false ∧
    (Except.ok false : Except HttpError Bool) ≠ .ok true := by
  exact ⟨rfl, by simp⟩

/-- C2 amended: for every (bucket, object) where the remote object does
not exist (the delete call fails with status 404), `delete` returns
`false` without raising (absence is still absorbed, not an error, but it
is reported as `false`). -/
theorem delete_missing_returns_false
    (deleteObj : String → String → Option String → Except HttpError Unit)
    (bucket object : String) (generation : Option String) (ex : HttpError)
    (h : deleteObj bucket object generation = .error ex) (h404 : ex.status = "404") :
    gcsDelete deleteObj bucket object generation = .ok false := by
  simp [gcsDelete, h, h404]

/-- Witness for the amended C2. -/
theorem delete_missing_returns_false_witness :
    gcsDelete delete404 "b" "o" none = .ok false :=
  delete_missing_returns_false delete404 "b" "o" none _ rfl rfl

/-- C3: for every (bucket, object, generation?), `delete` returns `true`
when the remote delete call succeeds, returns `false` specifically when
the call fails with status 404, and propagates the failure for any other
failure status. -/
theorem delete_404_disambiguation
    (deleteObj : String → String → Option String → Except HttpError Unit)
    (bucket object : String) (generation : Option String) :
    (∀ r, deleteObj bucket object generation = .ok r →
      gcsDelete deleteObj bucket object generation = .ok true) ∧
    (∀ ex, deleteObj bucket object generation = .error ex → ex.status = "404" →
      gcsDelete deleteObj bucket object generation = .ok false) ∧
    (∀ ex, deleteObj bucket object generation = .error ex → ex.status ≠ "404" →
      gcsDelete deleteObj bucket object generation = .error ex) := by
  refine ⟨fun r h => ?_, fun ex h h404 => ?_, fun ex h hne => ?_⟩
  · simp [gcsDelete, h]
  · simp [gcsDelete, h, h404]
  · simp [gcsDelete, h, hne]

/-- Witness for C3 at concrete service behaviours. -/
theorem delete_404_disambiguation_witness :
    gcsDelete deleteOk "b" "o" (some "g") = .ok true ∧
    gcsDelete delete404 "b" "o" (some "g") = .ok false ∧
    gcsDelete delete500 "b" "o" (some "g") = .error { status := "500" } :=
  ⟨(delete_404_disambiguation deleteOk "b" "o" (some "g")).1 _ rfl,
   (delete_404_disambiguation delete404 "b" "o" (some "g")).2.1 _ rfl rfl,
   (delete_404_disambiguation delete500 "b" "o" (some "g")).2.2 _ rfl (by decide)⟩

/-- C4: `is_updated_after` returns `false` on a 404 failure, propagates
every other failure, returns `false` when the successful response lacks
an `updated` field, and otherwise returns `true` iff the parsed `updated`
instant is strictly greater than the threshold, where a naive threshold
is first reinterpreted as UTC; in particular equal instants yield
`false`. -/
theorem is_updated_after_cases
    (getMetadata : String → String → Except HttpError MetaResponse)
    (bucket object : String) (ts : Datetime) :
    (∀ ex, getMetadata bucket object = .error ex → ex.status = "404" →
      is_updated_after getMetadata bucket object ts = .ok false) ∧
    (∀ ex, getMetadata bucket object = .error ex → ex.status ≠ "404" →
      is_updated_after getMetadata bucket object ts = .error ex) ∧
    (∀ r, getMetadata bucket object = .ok r → r.updated = none →
      is_updated_after getMetadata bucket object ts = .ok false) ∧
    (∀ r u, getMetadata bucket object = .ok r → r.updated = some u →
      is_updated_after getMetadata bucket object ts =
        .ok (decide (u.toInstant > ts.replaceUtcIfNaive.toInstant))) ∧
    (∀ r u, getMetadata bucket object = .ok r → r.updated = some u →
      u.toInstant = ts.replaceUtcIfNaive.toInstant →
      is_updated_after getMetadata bucket object ts = .ok false) := by
  refine ⟨fun ex h h404 => ?_, fun ex h hne => ?_, fun r h hu => ?_,
    fun r u h hu => ?_, fun r u h hu heq => ?_⟩
  · simp [is_updated_after, h, h404]
  · simp [is_updated_after, h, hne]
  · simp [is_updated_after, h, hu]
  · by_cases hgt : u.toInstant > ts.replaceUtcIfNaive.toInstant
    · simp [is_updated_after, h, hu, hgt]
    · simp [is_updated_after, h, hu, hgt]
  · simp [is_updated_after, h, hu, heq]

/-- Witness for C4: 404 absorbed, 500 propagated, missing field is
`false`, a later instant is `true`, and an equal instant is `false`
(threshold naive at wall-clock 3, i.e. instant 3 once assumed UTC). -/
theorem is_updated_after_cases_witness :
    is_updated_after meta404 "b" "o" { wall := 3, tzinfo := none } = .ok false ∧
    is_updated_after meta500 "b" "o" { wall := 3, tzinfo := none } = .error { status := "500" } ∧
    is_updated_after metaOk "b" "o" { wall := 3, tzinfo := none } = .ok false ∧
    is_updated_after metaUpd5 "b" "o" { wall := 3, tzinfo := none } = .ok true ∧
    is_updated_after metaUpd5 "b" "o" { wall := 5, tzinfo := none } = .ok false := by
  refine ⟨(is_updated_after_cases meta404 "b" "o" _).1 _ rfl rfl,
    (is_updated_after_cases meta500 "b" "o" _).2.1 _ rfl (by decide),
    (is_updated_after_cases metaOk "b" "o" _).2.2.1 _ rfl rfl,
    ?_, ?_⟩
  · have h := (is_updated_after_cases metaUpd5 "b" "o"
      { wall := 3, tzinfo := none }).2.2.2.1 _ _ rfl rfl
    simpa using h
  · exact (is_updated_after_cases metaUpd5 "b" "o"
      { wall := 5, tzinfo := none }).2.2.2.2 _ _ rfl rfl (by decide)

/-- C5: for every listing in which the service returns three pages, pages
1 and 2 each carrying a non-empty `nextPageToken` and page 3 carrying
none, `list` returns exactly the concatenation of the three pages' item
names in server-returned order, issues exactly three page requests, and
echoes each received token verbatim on the following request. -/
theorem list_three_pages
    (listPage : String → Option Bool → Option Int → Option String → Option String → ListResponse)
    (bucket : String) (versions : Option Bool) (maxResults : Option Int) (pfx : Option String)
    (items1 items2 items3 : List ListEntry) (t1 t2 : String)
    (ht1 : t1 ≠ "") (ht2 : t2 ≠ "")
    (h1 : listPage bucket versions maxResults none pfx =
      { items := some items1, nextPageToken := some t1 })
    (h2 : listPage bucket versions maxResults (some t1) pfx =
      { items := some items2, nextPageToken := some t2 })
    (h3 : listPage bucket versions maxResults (some t2) pfx =
      { items := some items3, nextPageToken := none })
    (n : Nat) :
    gcsList listPage bucket versions maxResults pfx (n + 3) =
      (items1.filterMap ListEntry.nameOf ++ items2.filterMap ListEntry.nameOf ++
        items3.filterMap ListEntry.nameOf,
       [none, some t1, some t2], true) := by
  simp [gcsList, listLoop, h1, h2, h3, ht1, ht2]

/-- Witness for C5: a concrete three-page listing, run with fuel 3. -/
theorem list_three_pages_witness :
    gcsList pages3 "b" none none none 3 =
      (["a1", "a2", "b1", "c1"], [none, some "T1", some "T2"], true) :=
  list_three_pages pages3 "b" none none none
    [.named "a1", .named "a2"] [.named "b1"] [.named "c1"] "T1" "T2"
    (by decide) (by decide) rfl rfl rfl 0

/-- C6: for every page response with no `items` field the loop stops and
returns everything accumulated so far; in particular, when the first
response has no `items` field, `list` returns an empty sequence and
issues exactly one request. -/
theorem list_no_items_terminates :
    (∀ (page : Option String → ListResponse) (fuel : Nat) (tok : Option String)
        (ids : List String) (reqs : List (Option String)),
      (page tok).items = none →
      listLoop page (fuel + 1) tok ids reqs = (ids, reqs ++ [tok], true)) ∧
    (∀ (listPage : String → Option Bool → Option Int → Option String → Option String → ListResponse)
        (bucket : String) (versions : Option Bool) (maxResults : Option Int)
        (pfx : Option String) (fuel : Nat),
      (listPage bucket versions maxResults none pfx).items = none →
      gcsList listPage bucket versions maxResults pfx (fuel + 1) = ([], [none], true)) := by
  constructor
  · intro page fuel tok ids reqs h
    simp [listLoop, h]
  · intro listPage bucket versions maxResults pfx fuel h
    simp [gcsList, listLoop, h]

/-- Witness for C6 at a service that never returns `items`. -/
theorem list_no_items_terminates_witness :
    listLoop (fun tok => pagesNoItems "b" none none tok none) 1 none ["x"] [some "t"] =
      (["x"], [some "t", none], true) ∧
    gcsList pagesNoItems "b" none none none 1 = ([], [none], true) :=
  ⟨list_no_items_terminates.1 (fun tok => pagesNoItems "b" none none tok none)
      0 none ["x"] [some "t"] rfl,
   list_no_items_terminates.2 pagesNoItems "b" none none none 0 rfl⟩

/-- Invariant of the pagination loop: if no request issued so far carried
the empty-string token and the pending token is not the empty string,
then no request in the final trace carries the empty-string token. -/
theorem listLoop_no_empty_token_requests
    (page : Option String → ListResponse) :
    ∀ (fuel : Nat) (tok : Option String) (ids : List String) (reqs : List (Option String)),
      reqs.all (fun t => t ≠ some "") = true → tok ≠ some "" →
      ((listLoop page fuel tok ids reqs).2.1).all (fun t => t ≠ some "") = true := by
  intro fuel
  induction fuel with
  | zero =>
    intro tok ids reqs hreqs htok
    simpa [listLoop] using hreqs
  | succ fuel ih =>
    intro tok ids reqs hreqs htok
    have hstep : (reqs ++ [tok]).all (fun t => t ≠ some "") = true := by
      simp_all [List.all_append]
    simp only [listLoop]
    cases hitems : (page tok).items with
    | none => simpa using hstep
    | some items =>
      cases hnext : (page tok).nextPageToken with
      | none => simpa using hstep
      | some tok2 =>
        by_cases hempty : tok2 = ""
        · simpa [hempty] using hstep
        · simpa [hempty] using
            ih (some tok2) (ids ++ items.filterMap ListEntry.nameOf)
              (reqs ++ [tok]) hstep (by simp [hempty])

/-- C7: the pagination loop never issues a page request carrying the
empty-string cursor token; and when page 3 carries an empty-string
token (pages 1 and 2 carrying non-empty ones), the loop terminates after
that page with exactly three requests issued — no fourth request. -/
theorem list_never_requests_empty_token :
    (∀ (listPage : String → Option Bool → Option Int → Option String → Option String → ListResponse)
        (bucket : String) (versions : Option Bool) (maxResults : Option Int)
        (pfx : Option String) (fuel : Nat),
      ((gcsList listPage bucket versions maxResults pfx fuel).2.1).all
        (fun t => t ≠ some "") = true) ∧
    (∀ (listPage : String → Option Bool → Option Int → Option String → Option String → ListResponse)
        (bucket : String) (versions : Option Bool) (maxResults : Option Int)
        (pfx : Option String)
        (items1 items2 items3 : List ListEntry) (t1 t2 : String),
      t1 ≠ "" → t2 ≠ "" →
      listPage bucket versions maxResults none pfx =
        { items := some items1, nextPageToken := some t1 } →
      listPage bucket versions maxResults (some t1) pfx =
        { items := some items2, nextPageToken := some t2 } →
      listPage bucket versions maxResults (some t2) pfx =
        { items := some items3, nextPageToken := some "" } →
      ∀ n, (gcsList listPage bucket versions maxResults pfx (n + 3)).2 =
        ([none, some t1, some t2], true)) := by
  constructor
  · intro listPage bucket versions maxResults pfx fuel
    exact listLoop_no_empty_token_requests _ fuel none [] [] rfl (by simp)
  · intro listPage bucket versions maxResults pfx items1 items2 items3 t1 t2
      ht1 ht2 h1 h2 h3 n
    simp [gcsList, listLoop, h1, h2, h3, ht1, ht2]

/-- Witness for C7: the empty-token trace invariant on the concrete
three-page listing, and termination after page 3 when that page carries
an empty-string token. -/
theorem list_never_requests_empty_token_witness :
    ((gcsList pages3empty "b" none none none 9).2.1).all (fun t => t ≠ some "") = true ∧
    (gcsList pages3empty "b" none none none 3).2 = ([none, some "T1", some "T2"], true) :=
  ⟨list_never_requests_empty_token.1 pages3empty "b" none none none 9,
   list_never_requests_empty_token.2 pages3empty "b" none none none
     [.named "a1"] [.named "b1"] [.named "c1"] "T1" "T2"
     (by decide) (by decide) rfl rfl rfl 0⟩

/-- C8: `download` has no exception handling around the media GET, so it
propagates every failure unchanged — including status 404, which it never
converts into a non-error result. -/
theorem download_propagates_errors
    (getMedia : String → String → Except HttpError Content)
    (bucket object : String) (filename : Option String) (fs : FileSystem)
    (ex : HttpError) (h : getMedia bucket object = .error ex) :
    download getMedia bucket object filename fs = .error ex := by
  simp [download, h]

/-- Witness for C8 at a media GET failing with status 404 — the status
that the boolean-returning operations absorb but `download` must not. -/
theorem download_propagates_errors_witness :
    download media404 "b" "o" none [] = .error { status := "404" } :=
  download_propagates_errors media404 "b" "o" none [] _ rfl

/-- C9: uploading content `C` from a local file to (bucket, object) and
then downloading (bucket, object) from the resulting store returns
content equal to `C`. -/
theorem upload_download_roundtrip
    (store : Store) (fs : FileSystem) (bucket object filename mime_type : String)
    (c : Content) (h : readFile fs filename = some c) :
    ∃ store2, uploadToStore store fs bucket object filename mime_type = some store2 ∧
      download (storeGetMedia store2) bucket object none fs = .ok (c, fs) := by
  refine ⟨storeInsert store bucket object c, ?_, ?_⟩
  · simp [uploadToStore, h]
  · simp [download, storeGetMedia, storeInsert, List.lookup, filenameTruthy]

/-- Witness for C9: a concrete file uploaded into an empty store and
downloaded back. -/
theorem upload_download_roundtrip_witness :
    ∃ store2,
      uploadToStore [] [("f", .bytes [7])] "b" "o" "f" "application/octet-stream" = some store2 ∧
      download (storeGetMedia store2) "b" "o" none [("f", .bytes [7])] =
        .ok (.bytes [7], [("f", .bytes [7])]) :=
  upload_download_roundtrip [] [("f", .bytes [7])] "b" "o" "f"
    "application/octet-stream" (.bytes [7]) rfl

/-- C10: `download` tests the destination path for truthiness, so an
empty-string path behaves exactly like no path at all — the fetched
content is returned and the filesystem is untouched — while a non-empty
path gets the content written to it. -/
theorem download_empty_path_no_write
    (getMedia : String → String → Except HttpError Content)
    (bucket object : String) (fs : FileSystem) (c : Content)
    (h : getMedia bucket object = .ok c) :
    download getMedia bucket object (some "") fs = .ok (c, fs) ∧
    download getMedia bucket object none fs = .ok (c, fs) ∧
    (∀ f : String, f ≠ "" →
      download getMedia bucket object (some f) fs = .ok (c, writeFile fs f c)) := by
  refine ⟨?_, ?_, fun f hf => ?_⟩
  · simp [download, h, filenameTruthy]
  · simp [download, h, filenameTruthy]
  · simp [download, h, filenameTruthy, hf]

/-- Witness for C10: a concrete download with an empty destination path,
no path, and a non-empty path. -/
theorem download_empty_path_no_write_witness :
    download mediaByte "b" "o" (some "") [] = .ok (.bytes [7], []) ∧
    download mediaByte "b" "o" none [] = .ok (.bytes [7], []) ∧
    download mediaByte "b" "o" (some "p") [] =
      .ok (.bytes [7], [("p", .bytes [7])]) :=
  ⟨(download_empty_path_no_write mediaByte "b" "o" [] _ rfl).1,
   (download_empty_path_no_write mediaByte "b" "o" [] _ rfl).2.1,
   (download_empty_path_no_write mediaByte "b" "o" [] _ rfl).2.2 "p" (by decide)⟩

end GCSHook
